import Mathlib

/-!
Verification of the citation tracking core of `ivcap-crewai-service`.

This file shallowly embeds the citation data model
(`citation_tracking/core/citation_model.py`), the duplicate detector
(`citation_tracking/validation/duplicate_detector.py`), the DOI validator's
pure control flow (`citation_tracking/validation/doi_validator.py`) and the
citation manager's add-from-DOI path
(`citation_tracking/core/citation_manager.py`), and proves the spec's
claims about them.

Modelling conventions:
- Python `str` becomes `String` (processed as `List Char` internally);
  Python `float` scores become `ℚ`; Python `datetime` timestamps become `Nat`.
- `Optional[X]` fields become `Option X`; Python truthiness of each field
  type is modelled explicitly (`strTruthy`, `authTruthy`, ...), so `None`,
  `""`, `[]`, `0` and `0.0` are all falsy exactly as in CPython.
- Stateful mutation (store append, in-place merge, cache writes) becomes
  explicit state passing: functions return the updated value.
- Network I/O in the DOI validator is modelled by passing the registry
  response (status code plus already-extracted metadata payload) as an
  explicit argument; the caching and result logic around it is embedded
  from the source.
-/

/-- Python whitespace characters as stripped by `str.strip()` and matched
by the regex class `\s` (ASCII range, which covers every string this
code base manipulates). -/
def pyIsSpace (c : Char) : Bool :=
  c == ' ' || c == '\t' || c == '\n' || c == '\r' || c == '\x0b' || c == '\x0c'

/-- `str.strip()`: drop whitespace from both ends. -/
def stripWs (l : List Char) : List Char :=
  ((l.dropWhile pyIsSpace).reverse.dropWhile pyIsSpace).reverse

/-- Characters of the regex class `\w` (word characters). -/
def isWordChar (c : Char) : Bool :=
  c.isAlphanum || c == '_'

/-- `re.sub(r'[^\w\s]', '', s)`: keep only word characters and whitespace. -/
def keepWordChars (l : List Char) : List Char :=
  l.filter (fun c => isWordChar c || pyIsSpace c)

/-- Helper for `re.sub(r'\s+', ' ', s)`: the flag records whether the
previous character was whitespace (so a run collapses to one space). -/
def collapseWsAux : Bool → List Char → List Char
  | _, [] => []
  | prevWs, c :: rest =>
    if pyIsSpace c then
      if prevWs then collapseWsAux true rest
      else ' ' :: collapseWsAux true rest
    else c :: collapseWsAux false rest

/-- `re.sub(r'\s+', ' ', s)`: collapse whitespace runs to a single space. -/
def collapseWs (l : List Char) : List Char :=
  collapseWsAux false l

/-- Drop a leading pattern once, as in `doi[len(p):]` guarded by
`doi.startswith(p)`. -/
def dropPre (pat l : List Char) : List Char :=
  if pat.isPrefixOf l then l.drop pat.length else l

/-- `str.replace(pat, '')` for a non-empty pattern: remove every
(left-to-right, non-overlapping) occurrence of `pat`.  The fuel is the
length of the scanned list: each step consumes at least one character. -/
def removeAllAux (pat : List Char) : Nat → List Char → List Char
  | 0, s => s
  | _ + 1, [] => []
  | fuel + 1, c :: rest =>
    if !pat.isEmpty && pat.isPrefixOf (c :: rest) then
      removeAllAux pat fuel ((c :: rest).drop pat.length)
    else c :: removeAllAux pat fuel rest

/-- `str.replace(pat, '')` (pattern non-empty in every call site). -/
def removeAll (pat l : List Char) : List Char :=
  removeAllAux pat l.length l

/-- Python truthiness of an `Optional[str]` field: `None` and `""` falsy. -/
def strTruthy : Option String → Bool
  | none => false
  | some s => s != ""

/-- Python truthiness of an `Optional[List]` field: `None` and `[]` falsy. -/
def authTruthy {α : Type} : Option (List α) → Bool
  | none => false
  | some l => !l.isEmpty

/-- Python truthiness of an `Optional[bool]` field. -/
def validTruthy : Option Bool → Bool
  | none => false
  | some b => b

/-- CSL name object (`CSLName` in `citation_model.py`); only the fields the
embedded code paths read are carried (`family` is required and non-empty
by the pydantic validator, `given` optional). -/
structure CSLName where
  family : String
  given : Option String := none
deriving DecidableEq

/-- CSL date object (`CSLDate`); `date_parts` is `[[year, month?, day?], ...]`. -/
structure CSLDate where
  date_parts : List (List Int)
deriving DecidableEq

/-- `CSLDate.get_year`: the first component of the first date-parts entry,
when both are non-empty. -/
def CSLDate.get_year : CSLDate → Option Int
  | ⟨(y :: _) :: _⟩ => some y
  | _ => none

/-- CSL-JSON citation record (`CSLCitation`), restricted to the fields read
or written by the embedded operations (store add, duplicate scoring, merge,
completeness score, manager add path). -/
structure CSLCitation where
  id : String
  type : String
  author : Option (List CSLName) := none
  title : Option String := none
  container_title : Option String := none
  issued : Option CSLDate := none
  publisher : Option String := none
  volume : Option String := none
  issue : Option String := none
  page : Option String := none
  DOI : Option String := none
  PMID : Option String := none
  PMCID : Option String := none
  ISBN : Option String := none
  ISSN : Option String := none
  URL : Option String := none
  abstract : Option String := none
  keyword : Option String := none
  citation_number : Option Nat := none
  added_by : Option String := none
  added_at : Option Nat := none
  validated : Option Bool := some false
  validation_method : Option String := none
  credibility_score : Option ℚ := none
  impact_factor : Option ℚ := none
  citation_count : Option Nat := none
  in_text_count : Option Nat := some 0
deriving DecidableEq

/-- `CSLCitation.get_year`: year of the `issued` date, if any. -/
def CSLCitation.get_year (c : CSLCitation) : Option Int :=
  match c.issued with
  | some d => d.get_year
  | none => none

/-- Collection of citations for a research job (`CitationDatabase`); the
unused free-form `metadata` dict is omitted. -/
structure CitationDatabase where
  job_id : String
  style : String := "apa"
  citations : List CSLCitation := []
deriving DecidableEq

/-!
### `difflib.SequenceMatcher.ratio`

The fuzzy similarity used by the duplicate detector is CPython's
`difflib.SequenceMatcher(None, a, b).ratio()`.  For sequences shorter than
200 elements (every title/author string this system compares) the junk and
autojunk machinery is inert, and the algorithm is: repeatedly take the
longest matching block (earliest in `a`, then earliest in `b`, on ties),
recurse on both sides, and return `2*M/T` where `M` is the total matched
length and `T` the sum of the lengths (`1.0` when `T = 0`).
-/

/-- Do positions `i` of `a` and `j` of `b` hold the same character? -/
def charMatch (a b : List Char) (i j : Nat) : Bool :=
  match a.get? i, b.get? j with
  | some x, some y => x == y
  | _, _ => false

/-- Length of the common run of `a` and `b` ending exactly at positions
`(i, j)` (the value `j2len[j]` reaches in row `i` of the matcher's DP,
before windowing). -/
def runEnd (a b : List Char) : Nat → Nat → Nat
  | 0, j => if charMatch a b 0 j then 1 else 0
  | i + 1, 0 => if charMatch a b (i + 1) 0 then 1 else 0
  | i + 1, j + 1 => if charMatch a b (i + 1) (j + 1) then runEnd a b i j + 1 else 0

/-- The run ending at `(i, j)` truncated to the window starting at
`(alo, blo)` — exactly what the DP computes when restricted to a window. -/
def runEndW (a b : List Char) (alo blo i j : Nat) : Nat :=
  min (runEnd a b i j) (min (i + 1 - alo) (j + 1 - blo))

/-- `find_longest_match` on the window `[alo, ahi) × [blo, bhi)`: the triple
`(besti, bestj, bestsize)`, scanning `i` then `j` in ascending order and
keeping only strict improvements (so ties resolve to the earliest block). -/
def bestBlock (a b : List Char) (alo ahi blo bhi : Nat) : Nat × Nat × Nat :=
  (List.range (ahi - alo)).foldl
    (fun best di =>
      (List.range (bhi - blo)).foldl
        (fun best dj =>
          let i := alo + di
          let j := blo + dj
          let k := runEndW a b alo blo i j
          if k > best.2.2 then (i + 1 - k, j + 1 - k, k) else best)
        best)
    (alo, blo, 0)

/-- Total size of the matching blocks of `get_matching_blocks`, computed by
the standard recursion on the best block.  Each recursive call strictly
shrinks the window-size sum, so fuel `(ahi - alo) + (bhi - blo) + 1`
always suffices. -/
def matchTotal (a b : List Char) : Nat → Nat → Nat → Nat → Nat → Nat
  | 0, _, _, _, _ => 0
  | fuel + 1, alo, ahi, blo, bhi =>
    match bestBlock a b alo ahi blo bhi with
    | (bi, bj, k) =>
      if k = 0 then 0
      else matchTotal a b fuel alo bi blo bj + k + matchTotal a b fuel (bi + k) ahi (bj + k) bhi

/-- `SequenceMatcher(None, a, b).ratio()` as an exact rational. -/
def seqSim (a b : List Char) : ℚ :=
  let total := a.length + b.length
  if total = 0 then 1
  else 2 * (matchTotal a b (total + 1) 0 a.length 0 b.length : ℚ) / (total : ℚ)

/-!
### Duplicate detector (`duplicate_detector.py`)

The manager constructs `DuplicateDetector()` with its default thresholds
`title_threshold=0.85`, `author_threshold=0.90`; those are the constants
below.
-/

namespace DuplicateDetector

/-- Default `title_threshold` of the detector. -/
def title_threshold : ℚ := 85 / 100

/-- Default `author_threshold` of the detector. -/
def author_threshold : ℚ := 90 / 100

/-- `_normalize_doi`: lowercase, strip, drop each of the three prefixes in
turn when present, then keep only `[a-z0-9./]`. -/
def normalize_doi (doi : String) : List Char :=
  let l := stripWs (doi.toList.map Char.toLower)
  let l := dropPre ("http://doi.org/".toList) l
  let l := dropPre ("https://doi.org/".toList) l
  let l := dropPre ("doi:".toList) l
  l.filter (fun c => (c.isLower && c.isAlpha) || c.isDigit || c == '.' || c == '/')

/-- `_normalize_url`: lowercase, strip, remove a leading
`https?://(www.)?`, remove one trailing slash. -/
def normalize_url (url : String) : List Char :=
  let l := stripWs (url.toList.map Char.toLower)
  let l :=
    if ("https://www.".toList).isPrefixOf l then l.drop 12
    else if ("https://".toList).isPrefixOf l then l.drop 8
    else if ("http://www.".toList).isPrefixOf l then l.drop 11
    else if ("http://".toList).isPrefixOf l then l.drop 7
    else l
  if l.getLast? = some '/' then l.dropLast else l

/-- `_normalize_title`: lowercase, strip punctuation (`[^\w\s]`),
collapse whitespace runs, strip the ends. -/
def normalize_title (t : String) : List Char :=
  stripWs (collapseWs (keepWordChars (t.toList.map Char.toLower)))

/-- `_title_similarity`: `0.0` when either title is missing/empty,
otherwise the sequence ratio of the normalized titles. -/
def title_similarity (t1 t2 : Option String) : ℚ :=
  if !strTruthy t1 || !strTruthy t2 then 0
  else seqSim (normalize_title (t1.getD "")) (normalize_title (t2.getD ""))

/-- `_format_author`: `"family given"` lowercased with `[^\w\s]` removed
from each part, then stripped. -/
def format_author (a : CSLName) : List Char :=
  stripWs (keepWordChars (a.family.toList.map Char.toLower) ++
    (' ' :: keepWordChars ((a.given.getD "").toList.map Char.toLower)))

/-- `_author_similarity`: `0.0` when either list is `None`/empty; else the
first authors' ratio, averaged with the second authors' ratio when both
lists have a second author and the first ratio exceeds `0.8`. -/
def author_similarity : Option (List CSLName) → Option (List CSLName) → ℚ
  | some (x :: xs), some (y :: ys) =>
    let sim := seqSim (format_author x) (format_author y)
    match xs, ys with
    | x2 :: _, y2 :: _ =>
      if sim > 8 / 10 then
        (sim + seqSim (format_author x2) (format_author y2)) / 2
      else sim
    | _, _ => sim
  | _, _ => 0

/-- `_year_match`: both years truthy (present and non-zero) and equal. -/
def year_match (c1 c2 : CSLCitation) : Bool :=
  match c1.get_year, c2.get_year with
  | some y1, some y2 => y1 != 0 && y2 != 0 && y1 == y2
  | _, _ => false

/-- `_calculate_duplicate_score`: exact DOI, then exact PMID, then
normalized URL, then the fuzzy title/author/year strategy. -/
def calculate_duplicate_score (c1 c2 : CSLCitation) : ℚ :=
  if strTruthy c1.DOI = true ∧ strTruthy c2.DOI = true ∧
      normalize_doi (c1.DOI.getD "") = normalize_doi (c2.DOI.getD "") then 1
  else if strTruthy c1.PMID = true ∧ strTruthy c2.PMID = true ∧
      c1.PMID.getD "" = c2.PMID.getD "" then 1
  else if strTruthy c1.URL = true ∧ strTruthy c2.URL = true ∧
      normalize_url (c1.URL.getD "") = normalize_url (c2.URL.getD "") then 1
  else
    let title_sim := title_similarity c1.title c2.title
    let author_sim := author_similarity c1.author c2.author
    if title_sim > title_threshold ∧ author_sim > author_threshold ∧
        year_match c1 c2 = true then
      (title_sim + author_sim) / 2
    else 0

/-- `find_duplicates`: every existing citation with a different `id` and a
positive duplicate score, in store order. -/
def find_duplicates (citation : CSLCitation) (existing : List CSLCitation) :
    List CSLCitation :=
  existing.filter (fun e =>
    e.id != citation.id && decide (calculate_duplicate_score citation e > 0))

/-- One step of the descriptive-field merge loop: copy the duplicate's
value only when the original's is falsy and the duplicate's truthy. -/
def mergeField (o d : Option String) : Option String :=
  if !strTruthy o && strTruthy d then d else o

/-- The descriptive-field loop of `merge_citations` over
`fields_to_merge` (14 fields, in source order). -/
def mergeFields (o d : CSLCitation) : CSLCitation :=
  { o with
    title := mergeField o.title d.title
    container_title := mergeField o.container_title d.container_title
    publisher := mergeField o.publisher d.publisher
    volume := mergeField o.volume d.volume
    issue := mergeField o.issue d.issue
    page := mergeField o.page d.page
    DOI := mergeField o.DOI d.DOI
    PMID := mergeField o.PMID d.PMID
    PMCID := mergeField o.PMCID d.PMCID
    ISBN := mergeField o.ISBN d.ISBN
    ISSN := mergeField o.ISSN d.ISSN
    URL := mergeField o.URL d.URL
    abstract := mergeField o.abstract d.abstract
    keyword := mergeField o.keyword d.keyword }

/-- Author merge: adopt the duplicate's list when it is truthy and the
original's is falsy or strictly shorter. -/
def mergeAuthor (o d : CSLCitation) : CSLCitation :=
  let cond :=
    match d.author with
    | none => false
    | some dl =>
      !dl.isEmpty &&
        (match o.author with
         | none => true
         | some ol => ol.isEmpty || decide (ol.length < dl.length))
  if cond then { o with author := d.author } else o

/-- First `date_parts` entry, `[]` when the list is empty, as in
`x.date_parts[0] if x.date_parts else []`. -/
def headParts (d : CSLDate) : List Int :=
  match d.date_parts with
  | p :: _ => p
  | [] => []

/-- Issued-date merge: prefer the more precise date; adopt the duplicate's
date when the original has none. -/
def mergeIssued (o d : CSLCitation) : CSLCitation :=
  match d.issued, o.issued with
  | some di, some oi =>
    if (headParts di).length > (headParts oi).length then { o with issued := some di }
    else o
  | some di, none => { o with issued := some di }
  | none, _ => o

/-- Validation merge: promote the original when only the duplicate is
validated, copying the validation method. -/
def mergeValidation (o d : CSLCitation) : CSLCitation :=
  if validTruthy d.validated && !validTruthy o.validated then
    { o with validated := some true, validation_method := d.validation_method }
  else o

/-- `duplicate.x and (not original.x or duplicate.x > original.x)` for an
optional rational quality score (`0.0` is falsy). -/
def scoreGt (dv ov : Option ℚ) : Bool :=
  match dv with
  | none => false
  | some q =>
    (q != 0) &&
      (match ov with
       | none => true
       | some p => (p == 0) || decide (p < q))

/-- The same comparison for the optional integer `citation_count`. -/
def countGt (dv ov : Option Nat) : Bool :=
  match dv with
  | none => false
  | some n =>
    (n != 0) &&
      (match ov with
       | none => true
       | some m => (m == 0) || decide (m < n))

/-- Credibility-score merge (higher wins). -/
def mergeCred (o d : CSLCitation) : CSLCitation :=
  if scoreGt d.credibility_score o.credibility_score then
    { o with credibility_score := d.credibility_score }
  else o

/-- Impact-factor merge (higher wins). -/
def mergeImpact (o d : CSLCitation) : CSLCitation :=
  if scoreGt d.impact_factor o.impact_factor then
    { o with impact_factor := d.impact_factor }
  else o

/-- Citation-count merge (higher wins). -/
def mergeCitCount (o d : CSLCitation) : CSLCitation :=
  if countGt d.citation_count o.citation_count then
    { o with citation_count := d.citation_count }
  else o

/-- `in_text_count` merge: additive when the duplicate's count is truthy
(`original.in_text_count or 0` reads as `getD 0`). -/
def mergeInText (o d : CSLCitation) : CSLCitation :=
  match d.in_text_count with
  | some n =>
    if n ≠ 0 then { o with in_text_count := some (o.in_text_count.getD 0 + n) }
    else o
  | none => o

/-- `merge_citations(original, duplicate)`: the source's in-place mutation
sequence, as a function returning the updated original. -/
def merge_citations (original dup : CSLCitation) : CSLCitation :=
  mergeInText
    (mergeCitCount
      (mergeImpact
        (mergeCred
          (mergeValidation
            (mergeIssued (mergeAuthor (mergeFields original dup) dup) dup) dup)
          dup)
        dup)
      dup)
    dup

end DuplicateDetector

/-!
### Citation store (`CitationDatabase` methods in `citation_model.py`)
-/

/-- `CitationDatabase.add_citation`: return the first existing entry with
the same `id` unchanged, else assign `len(citations) + 1` as the citation
number when it is unset and append.  The returned pair is
(updated store, returned citation) — Python mutates the store and the
argument in place. -/
def CitationDatabase.add_citation (db : CitationDatabase) (citation : CSLCitation) :
    CitationDatabase × CSLCitation :=
  match db.citations.find? (fun e => e.id == citation.id) with
  | some existing => (db, existing)
  | none =>
    let c :=
      if citation.citation_number.isNone then
        { citation with citation_number := some (db.citations.length + 1) }
      else citation
    ({ db with citations := db.citations ++ [c] }, c)

/-- `CitationDatabase.get_citations_count`. -/
def CitationDatabase.get_citations_count (db : CitationDatabase) : Nat :=
  db.citations.length

/-- `CSLCitation.get_completeness_score`: weighted coverage, with the
running `total_fields`/`filled_fields` accumulation of the source (core
fields weight 2, important 1.5, identifiers 2, optional 1). -/
def CSLCitation.get_completeness_score (c : CSLCitation) : ℚ :=
  let total : ℚ := 3 * 2 + 2 * (3 / 2) + 3 * 2 + 4
  let filled : ℚ :=
    ((if strTruthy c.title then 2 else 0) +
     (if authTruthy c.author then 2 else 0) +
     (if c.issued.isSome then 2 else 0)) +
    ((if strTruthy c.container_title then 3 / 2 else 0) +
     (if strTruthy c.publisher then 3 / 2 else 0)) +
    ((if strTruthy c.DOI then 2 else 0) +
     (if strTruthy c.PMID then 2 else 0) +
     (if strTruthy c.URL then 2 else 0)) +
    ((if strTruthy c.volume then 1 else 0) +
     (if strTruthy c.issue then 1 else 0) +
     (if strTruthy c.page then 1 else 0) +
     (if strTruthy c.abstract then 1 else 0))
  if total > 0 then filled / total else 0

/-- The completeness score in the shape the spec words it — the sum of
the weights of the present fields divided by the total weight — except
that the true total of the source's weights is `3·2 + 2·1.5 + 3·2 + 4·1 =
19`, not the `17` the spec (and claim C7) miscounts it as. -/
def completeness_score_weighted (c : CSLCitation) : ℚ :=
  (((if strTruthy c.title then 2 else 0) +
    (if authTruthy c.author then 2 else 0) +
    (if c.issued.isSome then 2 else 0)) +
   ((if strTruthy c.container_title then 3 / 2 else 0) +
    (if strTruthy c.publisher then 3 / 2 else 0)) +
   ((if strTruthy c.DOI then 2 else 0) +
    (if strTruthy c.PMID then 2 else 0) +
    (if strTruthy c.URL then 2 else 0)) +
   ((if strTruthy c.volume then 1 else 0) +
    (if strTruthy c.issue then 1 else 0) +
    (if strTruthy c.page then 1 else 0) +
    (if strTruthy c.abstract then 1 else 0))) / 19

/-!
### Citation manager (`citation_manager.py`), add-from-DOI path

`create_citation_from_doi` performs network I/O; its result (a citation or
`None`) is passed to the embedded `add_from_doi` as an explicit argument.
The in-place `merge_citations(existing, citation)` mutates the store entry
it aliases, modelled by replacing the first entry with that `id`.
-/

/-- Replace the first store entry carrying the given `id` (the entry
`merge_citations` mutated in place). -/
def replace_citation : List CSLCitation → String → CSLCitation → List CSLCitation
  | [], _, _ => []
  | e :: rest, i, m =>
    if e.id == i then m :: rest else e :: replace_citation rest i m

/-- `CitationManager.add_from_doi` after the validator call: raise
(`Except.error`) when the validator yielded nothing; otherwise stamp
`added_by`, look for duplicates, merge into the first duplicate (returning
the merged existing record, store size unchanged) or add to the store. -/
def CitationManager.add_from_doi (db : CitationDatabase)
    (validator_citation : Option CSLCitation) (added_by : Option String) :
    Except String (CitationDatabase × CSLCitation) :=
  match validator_citation with
  | none => .error "Invalid or not found DOI"
  | some cit =>
    let citation := { cit with added_by := added_by }
    match DuplicateDetector.find_duplicates citation db.citations with
    | existing :: _ =>
      let merged := DuplicateDetector.merge_citations existing citation
      .ok ({ db with citations := replace_citation db.citations existing.id merged },
        merged)
    | [] =>
      let p := db.add_citation citation
      .ok (p.1, p.2)

/-!
### DOI validator (`doi_validator.py`)
-/

namespace DOIValidator

/-- `^10\.\d{4,}/\S+$` of `_normalize_doi`: `10.` then at least four
digits, a slash, and a non-empty whitespace-free remainder. -/
def doiPattern : List Char → Bool
  | '1' :: '0' :: '.' :: rest =>
    let ds := rest.takeWhile Char.isDigit
    let tail2 := rest.dropWhile Char.isDigit
    decide (4 ≤ ds.length) &&
      (match tail2 with
       | '/' :: rem => !rem.isEmpty && rem.all (fun c => !pyIsSpace c)
       | _ => false)
  | _ => false

/-- `DOIValidator._normalize_doi`: `None` for a falsy input, else strip
and lowercase, remove the first matching prefix via `str.replace` (which
removes every occurrence), and demand the DOI pattern. -/
def normalize_doi (doi : String) : Option String :=
  if doi = "" then none
  else
    let l := (stripWs doi.toList).map Char.toLower
    let l :=
      if ("http://doi.org/".toList).isPrefixOf l then
        removeAll ("http://doi.org/".toList) l
      else if ("https://doi.org/".toList).isPrefixOf l then
        removeAll ("https://doi.org/".toList) l
      else if ("doi:".toList).isPrefixOf l then
        removeAll ("doi:".toList) l
      else l
    if doiPattern l then some (List.asString l) else none

/-- The metadata dict extracted from a registry body by
`_extract_metadata` — its contents are irrelevant to the caching logic, so
it is carried as an opaque key/value list. -/
abbrev DoiMeta := List (String × String)

/-- One cache slot: `{valid, metadata, timestamp}`. -/
structure CacheEntry where
  valid : Bool
  metadata : Option DoiMeta
  timestamp : Nat
deriving DecidableEq

/-- The in-memory validation cache (a dict keyed by `"doi:<id>"`). -/
abbrev Cache := List (String × CacheEntry)

/-- Dict lookup. -/
def lookupCache (cache : Cache) (k : String) : Option CacheEntry :=
  (cache.find? (fun p => p.1 == k)).map (fun p => p.2)

/-- Dict assignment `cache[key] = entry` (replaces any previous slot). -/
def insertCache (cache : Cache) (k : String) (e : CacheEntry) : Cache :=
  (k, e) :: cache.filter (fun p => p.1 != k)

/-- Is there a fresh (unexpired) cache slot for this key? -/
def cacheFresh (cache : Cache) (k : String) (now ttl : Nat) : Bool :=
  match lookupCache cache k with
  | some e => decide (now - e.timestamp < ttl)
  | none => false

/-- The second component of `validate_doi`'s result: a metadata dict or an
`{"error": msg}` dict (absence models Python's `None`). -/
inductive DoiOutcome where
  | meta (m : DoiMeta)
  | err (msg : String)
deriving DecidableEq

/-- What one Crossref query step produced: an HTTP status with the body's
extracted metadata, a timeout, or another network failure. -/
inductive RegistryResponse where
  | status (code : Nat) (message : DoiMeta)
  | timeout
  | netError (msg : String)
deriving DecidableEq

/-- The response-handling tail of `validate_doi` (the `try` block after
the cache miss): 200 and 404 cache their verdicts, everything else is
returned as an error value with the cache untouched. -/
def queryRegistry (cache : Cache) (key : String) (now : Nat)
    (resp : RegistryResponse) : (Bool × Option DoiOutcome) × Cache :=
  match resp with
  | .status code m =>
    if code = 200 then
      ((true, some (.meta m)), insertCache cache key ⟨true, some m, now⟩)
    else if code = 404 then
      ((false, none), insertCache cache key ⟨false, none, now⟩)
    else
      ((false, some (.err ("API returned " ++ toString code))), cache)
  | .timeout => ((false, some (.err "Request timeout")), cache)
  | .netError s => ((false, some (.err s)), cache)

/-- `DOIValidator.validate_doi`: normalize, honor a fresh cache slot,
otherwise run the query step on the given registry response. -/
def validate_doi (cache : Cache) (now ttl : Nat) (doi : String)
    (resp : RegistryResponse) : (Bool × Option DoiOutcome) × Cache :=
  match normalize_doi doi with
  | none => ((false, none), cache)
  | some d =>
    let key := "doi:" ++ d
    match lookupCache cache key with
    | some e =>
      if now - e.timestamp < ttl then
        ((e.valid, e.metadata.map DoiOutcome.meta), cache)
      else queryRegistry cache key now resp
    | none => queryRegistry cache key now resp

end DOIValidator

/-!
### Claims
-/

open DuplicateDetector in
/-- C2: two citations that both carry a DOI whose `_normalize_doi` forms
agree score exactly `1.0`, whatever the raw casing or prefix variant. -/
theorem doi_exact_duplicate_score (c1 c2 : CSLCitation) (d1 d2 : String)
    (h1 : c1.DOI = some d1) (h2 : c2.DOI = some d2)
    (hne1 : d1 ≠ "") (hne2 : d2 ≠ "")
    (heq : DuplicateDetector.normalize_doi d1 = DuplicateDetector.normalize_doi d2) :
    DuplicateDetector.calculate_duplicate_score c1 c2 = 1 := by
  have t1 : strTruthy c1.DOI = true := by
    rw [h1]; simpa [strTruthy, bne_iff_ne] using hne1
  have t2 : strTruthy c2.DOI = true := by
    rw [h2]; simpa [strTruthy, bne_iff_ne] using hne2
  have e : DuplicateDetector.normalize_doi (c1.DOI.getD "") =
      DuplicateDetector.normalize_doi (c2.DOI.getD "") := by
    rw [h1, h2]; exact heq
  unfold DuplicateDetector.calculate_duplicate_score
  rw [if_pos ⟨t1, t2, e⟩]

/-- Witness citation for C2, DOI spelled with the `https://doi.org/`
prefix and upper-case suffix. -/
def w2a : CSLCitation :=
  { id := "a", type := "article-journal",
    DOI := some "https://doi.org/10.1038/NATURE12345" }

/-- Witness citation for C2, the same DOI in bare lower-case form. -/
def w2b : CSLCitation :=
  { id := "b", type := "article-journal", DOI := some "10.1038/nature12345" }

/-- C2 witness: casing/prefix variants of one DOI score `1.0`. -/
theorem doi_exact_duplicate_score_witness :
    DuplicateDetector.calculate_duplicate_score w2a w2b = 1 :=
  doi_exact_duplicate_score w2a w2b
    "https://doi.org/10.1038/NATURE12345" "10.1038/nature12345"
    rfl rfl (by decide) (by decide) (by decide)

/-- First citation of the C10 pair: DOI, PMID and URL all present and all
distinct from the second's, with matching title/author/year. -/
def w10a : CSLCitation :=
  { id := "a", type := "article-journal", DOI := some "10.1000/x",
    PMID := some "1", URL := some "http://a.com/x", title := some "deep nets",
    author := some [{ family := "Kim" }], issued := some ⟨[[2020]]⟩ }

/-- Second citation of the C10 pair. -/
def w10b : CSLCitation :=
  { id := "b", type := "article-journal", DOI := some "10.1000/y",
    PMID := some "2", URL := some "http://a.com/y", title := some "deep nets",
    author := some [{ family := "Kim" }], issued := some ⟨[[2020]]⟩ }

set_option maxRecDepth 8000 in
open DuplicateDetector in
/-- C10: disagreeing exact identifiers do not veto fuzzy matching — this
pair carries DOIs, PMIDs and URLs whose (normalized) values all differ,
yet the score falls through to the fuzzy average, is positive, and
`find_duplicates` classifies the pair as duplicates. -/
theorem disagreeing_identifiers_no_veto :
    strTruthy w10a.DOI = true ∧ strTruthy w10b.DOI = true ∧
    DuplicateDetector.normalize_doi (w10a.DOI.getD "") ≠
      DuplicateDetector.normalize_doi (w10b.DOI.getD "") ∧
    strTruthy w10a.PMID = true ∧ strTruthy w10b.PMID = true ∧
    w10a.PMID ≠ w10b.PMID ∧
    strTruthy w10a.URL = true ∧ strTruthy w10b.URL = true ∧
    DuplicateDetector.normalize_url (w10a.URL.getD "") ≠
      DuplicateDetector.normalize_url (w10b.URL.getD "") ∧
    DuplicateDetector.calculate_duplicate_score w10a w10b =
      (DuplicateDetector.title_similarity w10a.title w10b.title +
        DuplicateDetector.author_similarity w10a.author w10b.author) / 2 ∧
    DuplicateDetector.calculate_duplicate_score w10a w10b > 0 ∧
    DuplicateDetector.find_duplicates w10a [w10b] = [w10b] := by
  with_unfolding_all decide

/-- A citation carrying exactly the three core fields `title`, `author`,
`issued` (the round-trip example of claim C7). -/
def w7core : CSLCitation :=
  { id := "x", type := "article-journal", title := some "T",
    author := some [{ family := "Smith" }], issued := some ⟨[[2023]]⟩ }

/-- C7 counterexample: the core-fields-only citation scores `6/19`, not
the `6/17` the claim computes — the source's weights total
`3·2 + 2·1.5 + 3·2 + 4·1 = 19`, not 17. -/
theorem completeness_score_not_6_17 :
    w7core.get_completeness_score = 6 / 19 ∧
    w7core.get_completeness_score ≠ 6 / 17 := by
  with_unfolding_all decide

/-- C7 (amended): the completeness score is the weighted sum of the truthy
fields divided by the total weight 19 (title/author/issued weight 2,
container_title/publisher weight 1.5, DOI/PMID/URL weight 2,
volume/issue/page/abstract weight 1), and the core-only citation scores
exactly `6/19`. -/
theorem completeness_score_weighted_sum :
    (∀ c : CSLCitation,
      c.get_completeness_score = completeness_score_weighted c) ∧
    w7core.get_completeness_score = 6 / 19 := by
  constructor
  · intro c
    unfold CSLCitation.get_completeness_score completeness_score_weighted
    norm_num
  · with_unfolding_all decide

/-!
### Claim C1: store numbering
-/

/-- The stored `citation_number` values, in store order. -/
def numbersOf (db : CitationDatabase) : List (Option Nat) :=
  db.citations.map (fun c => c.citation_number)

/-- The numbering invariant claimed by the spec: the stored numbers are
exactly `some 1, ..., some N` in insertion order. -/
def goodNumbering (db : CitationDatabase) : Prop :=
  numbersOf db = (List.range db.citations.length).map (fun i => some (i + 1))

/-- A sequence of `add_citation` calls (each discarding the returned
citation), as the manager performs them. -/
def addAll (db : CitationDatabase) (cs : List CSLCitation) : CitationDatabase :=
  cs.foldl (fun d c => (d.add_citation c).1) db

/-- A citation arriving at the store with a pre-set `citation_number`. -/
def w1pre : CSLCitation :=
  { id := "pre", type := "article-journal", citation_number := some 5 }

/-- C1 counterexample: `add_citation` keeps a pre-set `citation_number`,
so one add into an empty store can already leave the stored numbers
`[some 5]`, which is not the contiguous sequence `1..N` the claim
asserts for every sequence of adds. -/
theorem numbering_invariant_counterexample :
    numbersOf (addAll ⟨"job", "apa", []⟩ [w1pre]) = [some 5] ∧
    numbersOf (addAll ⟨"job", "apa", []⟩ [w1pre]) ≠
      (List.range (addAll ⟨"job", "apa", []⟩ [w1pre]).citations.length).map
        (fun i => some (i + 1)) := by
  decide

/-- `add_citation` never reassigns: after an add the previous store
content is an unchanged prefix. -/
theorem add_citation_preserves_existing (db : CitationDatabase) (c : CSLCitation) :
    (db.add_citation c).1.citations.take db.citations.length = db.citations := by
  unfold CitationDatabase.add_citation
  cases db.citations.find? (fun e => e.id == c.id) with
  | some e => simp
  | none => exact List.take_left db.citations _

/-- One add of an unnumbered citation preserves the numbering invariant. -/
theorem add_citation_goodNumbering (db : CitationDatabase) (c : CSLCitation)
    (hg : goodNumbering db) (hc : c.citation_number = none) :
    goodNumbering (db.add_citation c).1 := by
  unfold CitationDatabase.add_citation
  cases db.citations.find? (fun e => e.id == c.id) with
  | some e => exact hg
  | none =>
    unfold goodNumbering numbersOf at hg ⊢
    simp only [hc, Option.isNone_none, if_true]
    simp only [List.map_append, List.length_append, List.map_cons, List.map_nil,
      List.length_cons, List.length_nil]
    rw [List.range_succ, List.map_append, hg]
    simp

/-- Adds of unnumbered citations keep the invariant, from any store
already satisfying it. -/
theorem addAll_goodNumbering (cs : List CSLCitation) :
    ∀ db : CitationDatabase, goodNumbering db →
      (∀ x ∈ cs, x.citation_number = none) → goodNumbering (addAll db cs) := by
  induction cs with
  | nil => intro db hg _; exact hg
  | cons c rest ih =>
    intro db hg h
    exact ih _ (add_citation_goodNumbering db c hg (h c (by simp)))
      (fun x hx => h x (by simp [hx]))

/-- C1 (amended): after any sequence of adds of citations that arrive with
`citation_number` unset, the stored numbers are the contiguous sequence
`some 1, ..., some N` in insertion order (so no two share a number), and
any single add leaves every previously stored citation — hence every
previously assigned number — untouched.  (The original claim fails when a
citation arrives with a pre-set number, which `add_citation` keeps.) -/
theorem numbering_invariant (jid sty : String) (cs : List CSLCitation)
    (db : CitationDatabase) (c : CSLCitation)
    (h : ∀ x ∈ cs, x.citation_number = none) :
    goodNumbering (addAll ⟨jid, sty, []⟩ cs) ∧
    (db.add_citation c).1.citations.take db.citations.length = db.citations := by
  constructor
  · exact addAll_goodNumbering cs ⟨jid, sty, []⟩ (by simp [goodNumbering, numbersOf]) h
  · exact add_citation_preserves_existing db c

/-- First unnumbered citation for the C1 witness. -/
def w1a : CSLCitation := { id := "a", type := "article-journal" }

/-- Second unnumbered citation for the C1 witness. -/
def w1b : CSLCitation := { id := "b", type := "book" }

/-- C1 witness: two unnumbered adds from an empty store yield numbers
`[some 1, some 2]`, and an add on top of that store keeps its prefix. -/
theorem numbering_invariant_witness :
    goodNumbering (addAll ⟨"job1", "apa", []⟩ [w1a, w1b]) ∧
    ((addAll ⟨"job1", "apa", []⟩ [w1a, w1b]).add_citation w1a).1.citations.take
        (addAll ⟨"job1", "apa", []⟩ [w1a, w1b]).citations.length =
      (addAll ⟨"job1", "apa", []⟩ [w1a, w1b]).citations :=
  numbering_invariant "job1" "apa" [w1a, w1b] (addAll ⟨"job1", "apa", []⟩ [w1a, w1b])
    w1a (by decide)

/-!
### Claims C4 and C9: merge precedence and merge frame
-/

namespace DuplicateDetector

/-- The 14 descriptive fields of `fields_to_merge`, packed in source
order for frame reasoning across the merge stages. -/
def descrFields (c : CSLCitation) : List (Option String) :=
  [c.title, c.container_title, c.publisher, c.volume, c.issue, c.page,
   c.DOI, c.PMID, c.PMCID, c.ISBN, c.ISSN, c.URL, c.abstract, c.keyword]

/-- The identity/provenance fields `merge_citations` never assigns. -/
def provFields (c : CSLCitation) :
    String × Option Nat × Option String × Option Nat :=
  (c.id, c.citation_number, c.added_by, c.added_at)

theorem descrFields_mergeAuthor (o d : CSLCitation) :
    descrFields (mergeAuthor o d) = descrFields o := by
  unfold mergeAuthor
  split <;> first | rfl | (dsimp only; split <;> rfl)

theorem descrFields_mergeIssued (o d : CSLCitation) :
    descrFields (mergeIssued o d) = descrFields o := by
  unfold mergeIssued
  rcases d.issued with _ | di <;> rcases ho : o.issued with _ | oi <;>
    simp only [ho] <;> first | rfl | (split <;> rfl)

theorem descrFields_mergeValidation (o d : CSLCitation) :
    descrFields (mergeValidation o d) = descrFields o := by
  unfold mergeValidation; split <;> rfl

theorem descrFields_mergeCred (o d : CSLCitation) :
    descrFields (mergeCred o d) = descrFields o := by
  unfold mergeCred; split <;> rfl

theorem descrFields_mergeImpact (o d : CSLCitation) :
    descrFields (mergeImpact o d) = descrFields o := by
  unfold mergeImpact; split <;> rfl

theorem descrFields_mergeCitCount (o d : CSLCitation) :
    descrFields (mergeCitCount o d) = descrFields o := by
  unfold mergeCitCount; split <;> rfl

theorem descrFields_mergeInText (o d : CSLCitation) :
    descrFields (mergeInText o d) = descrFields o := by
  unfold mergeInText
  split <;> first | rfl | (split <;> rfl)

theorem provFields_mergeFields (o d : CSLCitation) :
    provFields (mergeFields o d) = provFields o := rfl

theorem provFields_mergeAuthor (o d : CSLCitation) :
    provFields (mergeAuthor o d) = provFields o := by
  unfold mergeAuthor
  split <;> first | rfl | (dsimp only; split <;> rfl)

theorem provFields_mergeIssued (o d : CSLCitation) :
    provFields (mergeIssued o d) = provFields o := by
  unfold mergeIssued
  rcases d.issued with _ | di <;> rcases ho : o.issued with _ | oi <;>
    simp only [ho] <;> first | rfl | (split <;> rfl)

theorem provFields_mergeValidation (o d : CSLCitation) :
    provFields (mergeValidation o d) = provFields o := by
  unfold mergeValidation; split <;> rfl

theorem provFields_mergeCred (o d : CSLCitation) :
    provFields (mergeCred o d) = provFields o := by
  unfold mergeCred; split <;> rfl

theorem provFields_mergeImpact (o d : CSLCitation) :
    provFields (mergeImpact o d) = provFields o := by
  unfold mergeImpact; split <;> rfl

theorem provFields_mergeCitCount (o d : CSLCitation) :
    provFields (mergeCitCount o d) = provFields o := by
  unfold mergeCitCount; split <;> rfl

theorem provFields_mergeInText (o d : CSLCitation) :
    provFields (mergeInText o d) = provFields o := by
  unfold mergeInText
  split <;> first | rfl | (split <;> rfl)

/-- The merge stages after the descriptive-field loop do not touch the 14
descriptive fields. -/
theorem descrFields_merge (o d : CSLCitation) :
    descrFields (merge_citations o d) = descrFields (mergeFields o d) := by
  unfold merge_citations
  rw [descrFields_mergeInText, descrFields_mergeCitCount, descrFields_mergeImpact,
    descrFields_mergeCred, descrFields_mergeValidation, descrFields_mergeIssued,
    descrFields_mergeAuthor]

/-- One descriptive-field step in the claim's conditional form. -/
theorem mergeField_eq (a b : Option String) :
    mergeField a b =
      if strTruthy a = false ∧ strTruthy b = true then b else a := by
  unfold mergeField
  cases ha : strTruthy a <;> cases hb : strTruthy b <;> simp [ha, hb]

end DuplicateDetector

open DuplicateDetector in
/-- C4: for each of the 14 descriptive merge fields, `merge_citations`
takes the duplicate's value exactly when the original's is empty/absent
and the duplicate's is non-empty, and never overwrites an existing
non-empty value of the original. -/
theorem merge_descriptive_precedence (o d : CSLCitation) :
    ((merge_citations o d).title =
      if strTruthy o.title = false ∧ strTruthy d.title = true then d.title
      else o.title) ∧
    ((merge_citations o d).container_title =
      if strTruthy o.container_title = false ∧ strTruthy d.container_title = true
      then d.container_title else o.container_title) ∧
    ((merge_citations o d).publisher =
      if strTruthy o.publisher = false ∧ strTruthy d.publisher = true
      then d.publisher else o.publisher) ∧
    ((merge_citations o d).volume =
      if strTruthy o.volume = false ∧ strTruthy d.volume = true then d.volume
      else o.volume) ∧
    ((merge_citations o d).issue =
      if strTruthy o.issue = false ∧ strTruthy d.issue = true then d.issue
      else o.issue) ∧
    ((merge_citations o d).page =
      if strTruthy o.page = false ∧ strTruthy d.page = true then d.page
      else o.page) ∧
    ((merge_citations o d).DOI =
      if strTruthy o.DOI = false ∧ strTruthy d.DOI = true then d.DOI
      else o.DOI) ∧
    ((merge_citations o d).PMID =
      if strTruthy o.PMID = false ∧ strTruthy d.PMID = true then d.PMID
      else o.PMID) ∧
    ((merge_citations o d).PMCID =
      if strTruthy o.PMCID = false ∧ strTruthy d.PMCID = true then d.PMCID
      else o.PMCID) ∧
    ((merge_citations o d).ISBN =
      if strTruthy o.ISBN = false ∧ strTruthy d.ISBN = true then d.ISBN
      else o.ISBN) ∧
    ((merge_citations o d).ISSN =
      if strTruthy o.ISSN = false ∧ strTruthy d.ISSN = true then d.ISSN
      else o.ISSN) ∧
    ((merge_citations o d).URL =
      if strTruthy o.URL = false ∧ strTruthy d.URL = true then d.URL
      else o.URL) ∧
    ((merge_citations o d).abstract =
      if strTruthy o.abstract = false ∧ strTruthy d.abstract = true then d.abstract
      else o.abstract) ∧
    ((merge_citations o d).keyword =
      if strTruthy o.keyword = false ∧ strTruthy d.keyword = true then d.keyword
      else o.keyword) := by
  have h := descrFields_merge o d
  have hf : descrFields (mergeFields o d) =
      [mergeField o.title d.title, mergeField o.container_title d.container_title,
       mergeField o.publisher d.publisher, mergeField o.volume d.volume,
       mergeField o.issue d.issue, mergeField o.page d.page,
       mergeField o.DOI d.DOI, mergeField o.PMID d.PMID,
       mergeField o.PMCID d.PMCID, mergeField o.ISBN d.ISBN,
       mergeField o.ISSN d.ISSN, mergeField o.URL d.URL,
       mergeField o.abstract d.abstract, mergeField o.keyword d.keyword] := rfl
  rw [hf] at h
  simp only [descrFields, List.cons.injEq, and_true] at h
  obtain ⟨h1, h2, h3, h4, h5, h6, h7, h8, h9, h10, h11, h12, h13, h14⟩ := h
  exact ⟨h1.trans (mergeField_eq _ _), h2.trans (mergeField_eq _ _),
    h3.trans (mergeField_eq _ _), h4.trans (mergeField_eq _ _),
    h5.trans (mergeField_eq _ _), h6.trans (mergeField_eq _ _),
    h7.trans (mergeField_eq _ _), h8.trans (mergeField_eq _ _),
    h9.trans (mergeField_eq _ _), h10.trans (mergeField_eq _ _),
    h11.trans (mergeField_eq _ _), h12.trans (mergeField_eq _ _),
    h13.trans (mergeField_eq _ _), h14.trans (mergeField_eq _ _)⟩

open DuplicateDetector in
/-- C9: `merge_citations` never changes the retained record's `id`,
`citation_number`, `added_by` or `added_at`, whatever the duplicate
contains. -/
theorem merge_frame_identity (o d : CSLCitation) :
    (merge_citations o d).id = o.id ∧
    (merge_citations o d).citation_number = o.citation_number ∧
    (merge_citations o d).added_by = o.added_by ∧
    (merge_citations o d).added_at = o.added_at := by
  have h : provFields (merge_citations o d) = provFields o := by
    unfold merge_citations
    rw [provFields_mergeInText, provFields_mergeCitCount, provFields_mergeImpact,
      provFields_mergeCred, provFields_mergeValidation, provFields_mergeIssued,
      provFields_mergeAuthor, provFields_mergeFields]
  have h' := h
  unfold provFields at h'
  simp only [Prod.mk.injEq] at h'
  exact ⟨h'.1, h'.2.1, h'.2.2.1, h'.2.2.2⟩

/-- C6: adding a citation whose `id` is already stored returns the first
existing entry unchanged with the store untouched; and for any store and
citation, a second add of the same citation returns the record the first
add returned, without growing the store. -/
theorem idempotent_add (db : CitationDatabase) (c : CSLCitation) :
    (∀ e, db.citations.find? (fun x => x.id == c.id) = some e →
        db.add_citation c = (db, e)) ∧
    ((db.add_citation c).1.add_citation c).2 = (db.add_citation c).2 ∧
    ((db.add_citation c).1.add_citation c).1.get_citations_count =
      (db.add_citation c).1.get_citations_count := by
  refine ⟨fun e he => ?_, ?_⟩
  · unfold CitationDatabase.add_citation
    rw [he]
  · cases hf : db.citations.find? (fun x => x.id == c.id) with
    | some e =>
      have h1 : db.add_citation c = (db, e) := by
        unfold CitationDatabase.add_citation
        rw [hf]
      rw [h1]
      exact ⟨congrArg Prod.snd h1, congrArg (fun p => p.1.get_citations_count) h1⟩
    | none =>
      set c' := (if c.citation_number.isNone then
        { c with citation_number := some (db.citations.length + 1) } else c) with hc'
      have hid : c'.id = c.id := by
        rw [hc']; split <;> rfl
      have h1 : db.add_citation c =
          ({ db with citations := db.citations ++ [c'] }, c') := by
        unfold CitationDatabase.add_citation
        rw [hf]
      have h2 : (db.citations ++ [c']).find? (fun x => x.id == c.id) = some c' := by
        rw [List.find?_append, hf]
        simp [List.find?, hid]
      have h3 : ({ db with citations := db.citations ++ [c'] } :
          CitationDatabase).add_citation c =
          ({ db with citations := db.citations ++ [c'] }, c') := by
        unfold CitationDatabase.add_citation
        rw [h2]
      rw [h1, h3]
      exact ⟨rfl, rfl⟩

/-- The store entry already present for the C6 witness. -/
def w6e : CSLCitation := { id := "dup", type := "book", title := some "Kept" }

/-- The one-entry store for the C6 witness. -/
def w6db : CitationDatabase := ⟨"job6", "apa", [w6e]⟩

/-- A different citation carrying the already-stored `id`. -/
def w6c : CSLCitation := { id := "dup", type := "article-journal" }

/-- C6 witness: the duplicate-id add returns the stored entry with the
store unchanged, and a repeated add returns the same record both times. -/
theorem idempotent_add_witness :
    CitationDatabase.add_citation w6db w6c = (w6db, w6e) ∧
    ((w6db.add_citation w6c).1.add_citation w6c).2 = (w6db.add_citation w6c).2 ∧
    ((w6db.add_citation w6c).1.add_citation w6c).1.get_citations_count =
      (w6db.add_citation w6c).1.get_citations_count := by
  have h := idempotent_add w6db w6c
  exact ⟨h.1 w6e (by decide), h.2.1, h.2.2⟩

/-- Replacing a store entry in place never changes the store size. -/
theorem replace_citation_length (l : List CSLCitation) (i : String)
    (m : CSLCitation) : (replace_citation l i m).length = l.length := by
  induction l with
  | nil => rfl
  | cons e rest ih =>
    unfold replace_citation
    split
    · rfl
    · simpa using ih

/-- C5: when the validator yields a citation and duplicate detection finds
at least one match among the stored records, `add_from_doi` merges the new
data into the FIRST match, returns that (merged) existing record, and
leaves the store's citation count unchanged. -/
theorem add_from_doi_duplicate_path (db : CitationDatabase) (cit : CSLCitation)
    (ab : Option String) (existing : CSLCitation) (rest : List CSLCitation)
    (h : DuplicateDetector.find_duplicates { cit with added_by := ab }
      db.citations = existing :: rest) :
    ∃ db' : CitationDatabase,
      CitationManager.add_from_doi db (some cit) ab =
        .ok (db', DuplicateDetector.merge_citations existing
          { cit with added_by := ab }) ∧
      db'.get_citations_count = db.get_citations_count := by
  let merged := DuplicateDetector.merge_citations existing { cit with added_by := ab }
  refine ⟨{ db with citations := replace_citation db.citations existing.id merged }, ?_, ?_⟩
  · unfold CitationManager.add_from_doi
    dsimp only
    rw [h]
  · unfold CitationDatabase.get_citations_count
    exact replace_citation_length db.citations _ _

/-- The record already stored for the C5 witness. -/
def w5e : CSLCitation :=
  { id := "prior", type := "article-journal", DOI := some "10.9/z" }

/-- The one-entry store for the C5 witness. -/
def w5db : CitationDatabase := ⟨"job5", "apa", [w5e]⟩

/-- The validator-produced citation for the C5 witness: a different `id`
but the same DOI, so duplicate detection matches the stored record. -/
def w5c : CSLCitation :=
  { id := "fresh", type := "article-journal", DOI := some "10.9/z",
    title := some "Gained title" }

/-- C5 witness: the duplicate add merges into the stored record, returns
it, and the store count stays 1. -/
theorem add_from_doi_duplicate_path_witness :
    ∃ db' : CitationDatabase,
      CitationManager.add_from_doi w5db (some w5c) (some "agent") =
        .ok (db', DuplicateDetector.merge_citations w5e
          { w5c with added_by := some "agent" }) ∧
      db'.get_citations_count = w5db.get_citations_count :=
  add_from_doi_duplicate_path w5db w5c (some "agent") w5e []
    (by with_unfolding_all decide)

/-- `_author_similarity` is `0.0` whenever either author list is missing
or empty. -/
theorem author_similarity_zero (a1 a2 : Option (List CSLName))
    (h : a1 = none ∨ a1 = some [] ∨ a2 = none ∨ a2 = some []) :
    DuplicateDetector.author_similarity a1 a2 = 0 := by
  rcases a1 with _ | l1
  · rcases a2 with _ | l2
    · rfl
    · rcases l2 with _ | ⟨y, ys⟩ <;> rfl
  · rcases a2 with _ | l2
    · rcases l1 with _ | ⟨x, xs⟩ <;> rfl
    · rcases l1 with _ | ⟨x, xs⟩
      · rcases l2 with _ | ⟨y, ys⟩ <;> rfl
      · rcases l2 with _ | ⟨y, ys⟩
        · rfl
        · exfalso
          rcases h with h | h | h | h <;> simp at h

open DuplicateDetector in
/-- C3 (amended): with no exact DOI/PMID/URL match, the score is the
average of title and author similarity exactly when title similarity
exceeds 0.85, author similarity exceeds 0.90, and the two publication
years are present, equal and non-zero (Python truthiness treats a year of
0 as absent — the unamended claim's "both have a publication year and the
years are equal" fails at year 0); otherwise 0.0, and a missing or empty
author list on either side forces author similarity 0.0 and score 0.0. -/
theorem fuzzy_duplicate_rule (c1 c2 : CSLCitation)
    (hd : ¬ (strTruthy c1.DOI = true ∧ strTruthy c2.DOI = true ∧
      DuplicateDetector.normalize_doi (c1.DOI.getD "") =
        DuplicateDetector.normalize_doi (c2.DOI.getD "")))
    (hp : ¬ (strTruthy c1.PMID = true ∧ strTruthy c2.PMID = true ∧
      c1.PMID.getD "" = c2.PMID.getD ""))
    (hu : ¬ (strTruthy c1.URL = true ∧ strTruthy c2.URL = true ∧
      DuplicateDetector.normalize_url (c1.URL.getD "") =
        DuplicateDetector.normalize_url (c2.URL.getD ""))) :
    (calculate_duplicate_score c1 c2 =
      if title_similarity c1.title c2.title > title_threshold ∧
          author_similarity c1.author c2.author > author_threshold ∧
          year_match c1 c2 = true then
        (title_similarity c1.title c2.title +
          author_similarity c1.author c2.author) / 2
      else 0) ∧
    (year_match c1 c2 = true ↔
      ∃ y1 y2 : Int, c1.get_year = some y1 ∧ c2.get_year = some y2 ∧
        y1 = y2 ∧ y1 ≠ 0) ∧
    ((c1.author = none ∨ c1.author = some [] ∨
        c2.author = none ∨ c2.author = some []) →
      author_similarity c1.author c2.author = 0 ∧
        calculate_duplicate_score c1 c2 = 0) := by
  have hs : calculate_duplicate_score c1 c2 =
      if title_similarity c1.title c2.title > title_threshold ∧
          author_similarity c1.author c2.author > author_threshold ∧
          year_match c1 c2 = true then
        (title_similarity c1.title c2.title +
          author_similarity c1.author c2.author) / 2
      else 0 := by
    unfold calculate_duplicate_score
    rw [if_neg hd, if_neg hp, if_neg hu]
  refine ⟨hs, ?_, ?_⟩
  · unfold year_match
    cases h1 : c1.get_year with
    | none => simp
    | some y1 =>
      cases h2 : c2.get_year with
      | none => simp
      | some y2 =>
        simp only [Bool.and_eq_true, bne_iff_ne, ne_eq, beq_iff_eq,
          Option.some.injEq]
        constructor
        · rintro ⟨⟨hy1, hy2⟩, heq⟩
          exact ⟨y1, y2, rfl, rfl, heq, hy1⟩
        · rintro ⟨a, b, rfl, rfl, rfl, hne⟩
          exact ⟨⟨hne, hne⟩, rfl⟩
  · intro hcase
    have ha := author_similarity_zero c1.author c2.author hcase
    refine ⟨ha, ?_⟩
    rw [hs, if_neg]
    rintro ⟨-, hgt, -⟩
    rw [ha] at hgt
    exact absurd hgt (by norm_num [author_threshold])

/-- First citation of the C3 counterexample pair: matching title, matching
single author, publication year 0 — present and equal, but falsy. -/
def w3x : CSLCitation :=
  { id := "p", type := "article-journal", title := some "same title",
    author := some [{ family := "x" }], issued := some ⟨[[0]]⟩ }

/-- Second citation of the C3 counterexample pair. -/
def w3y : CSLCitation :=
  { id := "q", type := "article-journal", title := some "same title",
    author := some [{ family := "x" }], issued := some ⟨[[0]]⟩ }

set_option maxRecDepth 8000 in
open DuplicateDetector in
/-- C3 counterexample: this pair has no identifiers at all, title and
author similarities 1 above both thresholds, and a publication year on
both sides that is equal (0 = 0) — so the claim demands the average score
— yet the code returns 0.0 because `if year1 and year2` treats year 0 as
absent. -/
theorem fuzzy_duplicate_rule_counterexample :
    w3x.DOI = none ∧ w3x.PMID = none ∧ w3x.URL = none ∧
    w3y.DOI = none ∧ w3y.PMID = none ∧ w3y.URL = none ∧
    title_similarity w3x.title w3y.title > title_threshold ∧
    author_similarity w3x.author w3y.author > author_threshold ∧
    w3x.get_year = some 0 ∧ w3y.get_year = some 0 ∧
    calculate_duplicate_score w3x w3y = 0 ∧
    calculate_duplicate_score w3x w3y ≠
      (title_similarity w3x.title w3y.title +
        author_similarity w3x.author w3y.author) / 2 := by
  with_unfolding_all decide

/-- First citation of the C3 witness pair (no author list). -/
def w3m1 : CSLCitation :=
  { id := "m1", type := "report", title := some "t", issued := some ⟨[[2021]]⟩ }

/-- Second citation of the C3 witness pair. -/
def w3m2 : CSLCitation :=
  { id := "m2", type := "report", title := some "t", issued := some ⟨[[2021]]⟩ }

/-- C3 witness: a pair with no identifiers and a missing author list gets
author similarity 0.0 and duplicate score 0.0. -/
theorem fuzzy_duplicate_rule_witness :
    DuplicateDetector.author_similarity w3m1.author w3m2.author = 0 ∧
    DuplicateDetector.calculate_duplicate_score w3m1 w3m2 = 0 := by
  have h := fuzzy_duplicate_rule w3m1 w3m2 (by decide) (by decide) (by decide)
  exact h.2.2 (Or.inl rfl)

open DOIValidator in
/-- C8: on a live query (valid identifier, no fresh cache slot), any
registry outcome other than 200/404 — a non-200/404 status, a timeout, or
a network error — returns `(false, {"error": ...})` and leaves the cache
unchanged, while a 404 stores a slot marking the identifier invalid with
metadata `None`. -/
theorem transient_failures_not_cached (cache : DOIValidator.Cache)
    (now ttl : Nat) (doi d : String) (resp : DOIValidator.RegistryResponse)
    (hn : DOIValidator.normalize_doi doi = some d)
    (hmiss : cacheFresh cache ("doi:" ++ d) now ttl = false) :
    (∀ code m, resp = .status code m → code ≠ 200 → code ≠ 404 →
      validate_doi cache now ttl doi resp =
        ((false, some (.err ("API returned " ++ toString code))), cache)) ∧
    (resp = .timeout →
      validate_doi cache now ttl doi resp =
        ((false, some (.err "Request timeout")), cache)) ∧
    (∀ s, resp = .netError s →
      validate_doi cache now ttl doi resp = ((false, some (.err s)), cache)) ∧
    (∀ m, resp = .status 404 m →
      validate_doi cache now ttl doi resp =
        ((false, none), insertCache cache ("doi:" ++ d) ⟨false, none, now⟩)) := by
  have hq : validate_doi cache now ttl doi resp =
      queryRegistry cache ("doi:" ++ d) now resp := by
    unfold validate_doi
    rw [hn]
    dsimp only
    unfold cacheFresh at hmiss
    cases hl : lookupCache cache ("doi:" ++ d) with
    | none => rfl
    | some e =>
      rw [hl] at hmiss
      replace hmiss : ¬ (now - e.timestamp < ttl) := by simpa using hmiss
      dsimp only
      rw [if_neg hmiss]
  refine ⟨fun code m hr h200 h404 => ?_, fun hr => ?_, fun s hr => ?_,
    fun m hr => ?_⟩
  · subst hr
    rw [hq]
    unfold queryRegistry
    dsimp only
    rw [if_neg h200, if_neg h404]
  · subst hr
    rw [hq]
    rfl
  · subst hr
    rw [hq]
    rfl
  · subst hr
    rw [hq]
    rfl

/-- C8 witness: from an empty cache with DOI `10.1234/abcd`, a 500
response is returned as an error value with the cache left empty, and a
404 response caches an invalid slot with metadata `None`. -/
theorem transient_failures_not_cached_witness :
    DOIValidator.validate_doi [] 0 86400 "10.1234/abcd"
        (.status 500 []) =
      ((false, some (.err "API returned 500")), []) ∧
    DOIValidator.validate_doi [] 0 86400 "10.1234/abcd"
        (.status 404 []) =
      ((false, none),
        DOIValidator.insertCache [] ("doi:" ++ "10.1234/abcd")
          ⟨false, none, 0⟩) := by
  have h1 := transient_failures_not_cached [] 0 86400 "10.1234/abcd"
    "10.1234/abcd" (.status 500 []) (by decide) (by decide)
  have h2 := transient_failures_not_cached [] 0 86400 "10.1234/abcd"
    "10.1234/abcd" (.status 404 []) (by decide) (by decide)
  exact ⟨h1.1 500 [] rfl (by decide) (by decide), h2.2.2.2 [] rfl⟩
